import Mathlib

/-!
Verification of the banco_demo repository (src/main.py and
src/transformation.py) against its natural-language specification.

The embedding models a table as a column-name list plus a list of rows,
each row a list of string cell values.  The distributed engine (Spark) is
modelled by explicit parameters: the random draws of RAND() become a
boolean acceptance function over row-pair indices, the shuffle performed
by repartition on a random column becomes an explicit permutation
parameter, and catalog state (table existence, schema-file presence) and
the external row generator gerar_dados become explicit arguments.
Fallible Python code (raise / uncaught exceptions) is modelled with
Except.
-/

/-- A dataframe: ordered column names and rows of string cell values. -/
structure Table where
  cols : List String
  rows : List (List String)
deriving DecidableEq

/-! ## transformation.py -/

/-- src/transformation.py line 54: `repetition_factor = (transacoes_count // clientes_count) + 1`.
Python integer floor division; the caller guards `clientes_count > 0`. -/
def repetition_factor (clientes_count transacoes_count : Nat) : Nat :=
  transacoes_count / clientes_count + 1

/-- src/transformation.py lines 39-60, `repeat_clientes`.  The input is the
single-column id_usuario dataframe, modelled as the list of key values.
`shuffle` models the nondeterministic row order produced by
`withColumn("repeat", rand()).repartition("repeat")` (line 55).  When
`clientes_count = 0 < transacoes_count`, line 54 raises ZeroDivisionError
in Python, modelled as an error. Line 56 flat-maps each row to
`[x] * repetition_factor`. -/
def repeat_clientes (clientes : List String) (transacoes_count : Nat)
    (shuffle : List String → List String) : Except String (List String) :=
  let clientes_count := clientes.length
  if clientes_count < transacoes_count then
    if clientes_count = 0 then
      .error "ZeroDivisionError: integer division or modulo by zero"
    else
      .ok ((shuffle clientes).flatMap
        (fun x => List.replicate (repetition_factor clientes_count transacoes_count) x))
  else
    .ok clientes

/-- src/transformation.py lines 62-81, `update_transacoes_cartao`.  The SQL
`SELECT t.*, c.id_usuario FROM transacoes_cartao t JOIN clientes_repeated c
ON RAND() < 1.0 / (SELECT COUNT(*) FROM clientes_repeated)` is a cross join
filtered by an independent random draw per candidate row pair; `accept i j`
models whether the draw for fact row `i` and pool row `j` passes the
threshold.  Each surviving pair emits the fact row with the pool key
appended (`t.*` keeps every original fact column). With an empty pool the
threshold `1.0/0` is NULL in Spark SQL, so no pair survives; the cross
product is empty then anyway. -/
def update_transacoes_cartao (fact : Table) (pool : List String)
    (accept : Nat → Nat → Bool) : Table :=
  { cols := fact.cols ++ ["id_usuario"]
    rows := (List.range fact.rows.length).flatMap fun i =>
      (List.range pool.length).filterMap fun j =>
        if accept i j then
          match fact.rows.get? i, pool.get? j with
          | some trow, some k => some (trow ++ [k])
          | _, _ => none
        else none }

/-- src/transformation.py lines 94-102, `main` without the final save: load
the clientes key column and the fact table, run `repeat_clientes` with the
fact row count, then `update_transacoes_cartao`. -/
def transformation_main (clientes : List String) (fact : Table)
    (shuffle : List String → List String) (accept : Nat → Nat → Bool) :
    Except String Table :=
  match repeat_clientes clientes fact.rows.length shuffle with
  | .error e => .error e
  | .ok pool => .ok (update_transacoes_cartao fact pool accept)

/-! ## main.py -/

/-- Physical layout of a write, from the partitionBy / bucketBy branches. -/
inductive Layout
  | partitionByDate
  | bucketBy (numBuckets : Nat) (key : String)
  | plain
deriving DecidableEq

/-- One executed write: the rows written (execution-date column already
appended), the mode and format options, the layout, the destination (path
for `save`, table name for `saveAsTable`) and which sink was used. -/
structure WriteCall where
  rows : List (List String)
  mode : String
  format : String
  layout : Layout
  target : String
  isTable : Bool
deriving DecidableEq

/-- Observable engine calls issued by `criar_ou_atualizar_tabela`. -/
inductive Event
  | refreshTable (nome : String)
  | write (w : WriteCall)
deriving DecidableEq

/-- Per-table configuration section (config.ini). -/
structure TableConfig where
  num_records : Nat
  particionamento : Bool
  bucketing : Bool
  num_buckets : Nat
deriving DecidableEq

/-- Global configuration: DEFAULT section and storage section.  `base_path`
is modelled as always present (its absence is a distinct KeyError path not
exercised by any claim). -/
structure GlobalConfig where
  apenas_arquivos : Bool
  formato_arquivo : String
  storage_type : String
  base_path : String
deriving DecidableEq

/-- src/main.py lines 80-88 and 95-103: `if particionamento: partitionBy
("data_execucao") elif bucketing: bucketBy(num_buckets, "id_uf") else:`
— identical branch structure in the file path and the catalog path. -/
def chooseLayout (particionamento bucketing : Bool) (num_buckets : Nat) : Layout :=
  if particionamento then .partitionByDate
  else if bucketing then .bucketBy num_buckets "id_uf"
  else .plain

/-- src/main.py lines 68-74: the storage kind check; only "S3" and "ADLS"
proceed, anything else raises ValueError. -/
def storage_supported (s : String) : Bool :=
  s = "S3" || s = "ADLS"

/-- src/main.py lines 42-107, `criar_ou_atualizar_tabela`.  Steps in source
order: schema-file existence check (line 48), data generation via the
external `gerar_dados` (line 63) — the produced rows are used as returned,
with the current execution date appended to each row (line 65) —, storage
kind check (lines 68-74), then either the flat-file write path (lines
76-88, always mode "overwrite", global file format) or the catalog path
(lines 89-103, mode from table existence, REFRESH TABLE before an append,
fixed "parquet" format).  Returns the list of engine calls issued. -/
def criar_ou_atualizar_tabela (nome : String) (schemaExists : Bool)
    (cfg : TableConfig) (g : GlobalConfig)
    (gerar_dados : String → Nat → List (List String))
    (execDate : String) (tableExists : Bool) : Except String (List Event) :=
  if schemaExists = false then
    .error "FileNotFoundError: Arquivo de esquema nao encontrado"
  else
    let dados := gerar_dados nome cfg.num_records
    let rowsWithDate := dados.map (fun r => r ++ [execDate])
    if storage_supported g.storage_type = false then
      .error "ValueError: Armazenamento nao suportado"
    else if g.apenas_arquivos then
      .ok [Event.write
        { rows := rowsWithDate
          mode := "overwrite"
          format := g.formato_arquivo
          layout := chooseLayout cfg.particionamento cfg.bucketing cfg.num_buckets
          target := g.base_path ++ nome
          isTable := false }]
    else
      let write_mode := if tableExists then "append" else "overwrite"
      let refreshes := if tableExists then [Event.refreshTable nome] else []
      .ok (refreshes ++ [Event.write
        { rows := rowsWithDate
          mode := write_mode
          format := "parquet"
          layout := chooseLayout cfg.particionamento cfg.bucketing cfg.num_buckets
          target := nome
          isTable := true }])

/-- Embedding of Python str.split with a single comma separator, on the
character list: splitting the empty list yields one empty field, and each
comma starts a new field. -/
def splitCommaChars : List Char → List (List Char)
  | [] => [[]]
  | c :: cs =>
    if c = ',' then [] :: splitCommaChars cs
    else
      match splitCommaChars cs with
      | [] => [[c]]
      | w :: ws => (c :: w) :: ws

/-- Python str.split(",") as used on the `tabelas` configuration value at
src/main.py line 130. -/
def pySplitComma (s : String) : List String :=
  (splitCommaChars s.data).map String.mk

/-- Python str.strip() as used at src/main.py line 133: remove leading and
trailing whitespace. -/
def pyStrip (s : String) : String :=
  String.mk (((s.data.dropWhile Char.isWhitespace).reverse.dropWhile
    Char.isWhitespace).reverse)

/-- Observable events of `main` (src/main.py lines 109-147). -/
inductive MainEvent
  | invoked (nome : String)
  | tableError (nome : String)
  | warnedMissing (nome : String)
  | noTablesError
deriving DecidableEq

/-- src/main.py lines 132-141, the body of the per-table loop: strip the
name, check it against the configured sections, and call
`criar_ou_atualizar_tabela` inside a try/except that logs and continues. -/
def processTable (sections : List String)
    (criar : String → Except String (List Event)) (tabela : String) :
    List MainEvent :=
  let t := pyStrip tabela
  if t ∈ sections then
    match criar t with
    | .ok _ => [MainEvent.invoked t]
    | .error _ => [MainEvent.invoked t, MainEvent.tableError t]
  else
    [MainEvent.warnedMissing t]

/-- src/main.py lines 130-143: split the raw `tabelas` value on commas
(in Python, splitting an empty string still gives one empty-string field),
then loop if the list is non-empty, else log the no-tables error. -/
def main_loop (tabelasValue : String) (sections : List String)
    (criar : String → Except String (List Event)) : List MainEvent :=
  let tabelas := pySplitComma tabelasValue
  if tabelas.isEmpty then
    [MainEvent.noTablesError]
  else
    tabelas.flatMap (processTable sections criar)

/-- src/main.py lines 109-147, `main`: configuration load (line 112) and
engine-session initialization — Spark session creation plus the database
create/use of lines 115-127 — are inside the outer try; a failure of
either reaches the outer handler and exits with code 1 (line 147).
Otherwise the per-table loop runs and the process finishes with exit code
0.  Returns (exit code, observable events). -/
def main_run (configLoadOk sessionInitOk : Bool) (tabelasValue : String)
    (sections : List String)
    (criar : String → Except String (List Event)) : Nat × List MainEvent :=
  if configLoadOk = false then (1, [])
  else if sessionInitOk = false then (1, [])
  else (0, main_loop tabelasValue sections criar)

/-! ## Spec-side definitions (for refinement comparison only) -/

/-- Modelled from the spec wording of C3: `ceil(factRowCount / dimensionRowCount)`
as exact natural-number ceiling division. -/
def spec_ceil_div (f d : Nat) : Nat :=
  (f + d - 1) / d

/-- Modelled from the spec wording of C4: output columns are the original
fact columns except the foreign-key column, plus the newly assigned
foreign-key column. -/
def spec_reconciled_cols (cols : List String) : List String :=
  cols.filter (fun c => c ≠ "id_usuario") ++ ["id_usuario"]

/-! ## Helper lemmas on the main loop -/

/-- A table whose section is present is invoked by the loop body. -/
lemma invoked_mem_processTable (sections : List String)
    (criar : String → Except String (List Event)) (t : String)
    (hmem : pyStrip t ∈ sections) :
    MainEvent.invoked (pyStrip t) ∈ processTable sections criar t := by
  unfold processTable
  cases h : criar (pyStrip t) <;> simp [hmem, h]

/-- A failing invocation is logged and swallowed by the loop body. -/
lemma tableError_mem_processTable (sections : List String)
    (criar : String → Except String (List Event)) (t : String) (e : String)
    (hmem : pyStrip t ∈ sections) (herr : criar (pyStrip t) = .error e) :
    MainEvent.tableError (pyStrip t) ∈ processTable sections criar t := by
  simp [processTable, hmem, herr]

/-- A table without a configuration section only produces a warning. -/
lemma processTable_of_missing (sections : List String)
    (criar : String → Except String (List Event)) (t : String)
    (hmem : pyStrip t ∉ sections) :
    processTable sections criar t = [MainEvent.warnedMissing (pyStrip t)] := by
  simp [processTable, hmem]

/-- The loop body never emits the no-tables error. -/
lemma noTablesError_not_mem_processTable (sections : List String)
    (criar : String → Except String (List Event)) (t : String) :
    MainEvent.noTablesError ∉ processTable sections criar t := by
  unfold processTable
  by_cases hmem : pyStrip t ∈ sections
  · cases h : criar (pyStrip t) <;> simp [hmem, h]
  · simp [hmem]

/-- An invocation event can only come from a name whose section exists. -/
lemma invoked_mem_processTable_inv (sections : List String)
    (criar : String → Except String (List Event)) (t : String) (x : String)
    (h : MainEvent.invoked x ∈ processTable sections criar t) :
    x = pyStrip t ∧ pyStrip t ∈ sections := by
  unfold processTable at h
  by_cases hmem : pyStrip t ∈ sections
  · cases hc : criar (pyStrip t) <;> simp [hmem, hc] at h <;>
      exact ⟨h, hmem⟩
  · simp [hmem] at h

/-- When the split list has a member, the loop takes the non-empty branch. -/
lemma main_loop_eq_flatMap (tabelasValue : String) (sections : List String)
    (criar : String → Except String (List Event)) (t : String)
    (ht : t ∈ pySplitComma tabelasValue) :
    main_loop tabelasValue sections criar
      = (pySplitComma tabelasValue).flatMap (processTable sections criar) := by
  unfold main_loop
  have hne : (pySplitComma tabelasValue).isEmpty = false := by
    cases h : pySplitComma tabelasValue
    · rw [h] at ht
      cases ht
    · simp [h]
  simp [hne]

/-! ## Claims -/

/-- Claim C1: the claim states that the reconciliation pass
(`repeat_clientes` followed by `update_transacoes_cartao`) always returns
exactly as many rows as the input fact table.  The code joins all
(fact row, pool row) pairs on an independent random threshold, so the
output has one row per accepted pair: at a 1-row fact table with the
2-key dimension, draws that accept every pair give 2 rows and draws that
reject every pair give 0 rows, never the required 1.  This theorem
evaluates the pass at that failing input for both draw outcomes. -/
theorem c1_reconciliation_rowcount_failing :
    transformation_main ["a", "b"] ⟨["valor"], [["10"]]⟩ id (fun _ _ => true)
      = .ok ⟨["valor", "id_usuario"], [["10", "a"], ["10", "b"]]⟩
    ∧ transformation_main ["a", "b"] ⟨["valor"], [["10"]]⟩ id (fun _ _ => false)
      = .ok ⟨["valor", "id_usuario"], []⟩ :=
  ⟨rfl, rfl⟩

/-- Counterexample to claim C2 as stated: the generator returns 5 rows
although `num_records = 3`, yet materialization raises no error and writes
the mismatched 5-row batch. -/
theorem c2_rowcount_validation_cex :
    criar_ou_atualizar_tabela "clientes" true
      ⟨3, false, false, 0⟩ ⟨true, "csv", "S3", "s3a://bucket/"⟩
      (fun _ _ => [["r1"], ["r2"], ["r3"], ["r4"], ["r5"]]) "2026-10-12" false
    = .ok [Event.write ⟨[["r1", "2026-10-12"], ["r2", "2026-10-12"],
        ["r3", "2026-10-12"], ["r4", "2026-10-12"], ["r5", "2026-10-12"]],
        "overwrite", "csv", Layout.plain, "s3a://bucket/clientes", false⟩] :=
  rfl

/-- Claim C2, amended: materialization performs no row-count validation;
on every successful run the written batch is exactly whatever rows the
generator returned, each with the execution date appended, regardless of
`num_records`. -/
theorem c2_batch_written_as_generated (nome : String) (cfg : TableConfig)
    (g : GlobalConfig) (gerar_dados : String → Nat → List (List String))
    (execDate : String) (tableExists : Bool)
    (hs : storage_supported g.storage_type = true) :
    ∃ evs, criar_ou_atualizar_tabela nome true cfg g gerar_dados execDate tableExists
        = .ok evs
      ∧ ∀ w, Event.write w ∈ evs →
          w.rows = (gerar_dados nome cfg.num_records).map (fun r => r ++ [execDate]) := by
  by_cases ha : g.apenas_arquivos <;> by_cases ht : tableExists <;>
    simp_all [criar_ou_atualizar_tabela, hs]

/-- Witness for the claim C2 theorem at a concrete input. -/
theorem c2_batch_written_as_generated_witness :
    ∃ evs, criar_ou_atualizar_tabela "clientes" true ⟨3, false, false, 0⟩
        ⟨false, "parquet", "S3", "s3a://bucket/"⟩ (fun _ _ => [["r1"]])
        "2026-10-12" false = .ok evs
      ∧ ∀ w, Event.write w ∈ evs → w.rows = [["r1", "2026-10-12"]] :=
  c2_batch_written_as_generated "clientes" ⟨3, false, false, 0⟩
    ⟨false, "parquet", "S3", "s3a://bucket/"⟩ (fun _ _ => [["r1"]])
    "2026-10-12" false (by decide)

/-- Counterexample to claim C3 as stated: with 2 dimension keys and 4 fact
rows the code replicates each key 3 times (pool of 6), while
ceil(4 / 2) = 2; floor division plus one differs from the ceiling exactly
when the dimension count divides the fact count. -/
theorem c3_ceil_factor_cex :
    repeat_clientes ["a", "b"] 4 id = .ok ["a", "a", "a", "b", "b", "b"]
    ∧ repetition_factor 2 4 = 3 ∧ spec_ceil_div 4 2 = 2
    ∧ repetition_factor 2 4 ≠ spec_ceil_div 4 2 :=
  ⟨rfl, rfl, rfl, by decide⟩

/-- Claim C3, amended: whenever the dimension count d is positive and
smaller than the fact count f, the replication branch runs with factor
`f / d + 1` (floor division plus one), the inflated pool has `d * factor`
keys, which is at least f; the factor agrees with `ceil(f / d)` whenever d
does not divide f — in particular for d = 3, f = 10 the factor is 4. -/
theorem c3_replication_factor (clientes : List String) (f : Nat)
    (shuffle : List String → List String)
    (hlen : (shuffle clientes).length = clientes.length)
    (h0 : 0 < clientes.length) (hlt : clientes.length < f) :
    ∃ pool, repeat_clientes clientes f shuffle = .ok pool
      ∧ pool.length = clientes.length * repetition_factor clientes.length f
      ∧ f ≤ pool.length
      ∧ (¬ clientes.length ∣ f →
          repetition_factor clientes.length f = spec_ceil_div f clientes.length)
      ∧ repetition_factor 3 10 = 4 := by
  have hne : clientes.length ≠ 0 := Nat.pos_iff_ne_zero.mp h0
  have hpool : ((shuffle clientes).flatMap
      (fun x => List.replicate (repetition_factor clientes.length f) x)).length
      = clientes.length * repetition_factor clientes.length f := by
    rw [List.length_flatMap]
    have hcomp : (List.length ∘ fun x : String =>
        List.replicate (repetition_factor clientes.length f) x)
        = fun _ => repetition_factor clientes.length f := by
      funext x
      simp
    rw [hcomp, List.map_const', List.sum_replicate, smul_eq_mul, hlen, Nat.mul_comm]
  refine ⟨(shuffle clientes).flatMap
      (fun x => List.replicate (repetition_factor clientes.length f) x),
    by simp [repeat_clientes, hlt, hne], hpool, ?_, ?_, by decide⟩
  · rw [hpool]
    have hdm := Nat.div_add_mod f clientes.length
    have hml : f % clientes.length < clientes.length := Nat.mod_lt _ h0
    have hq : clientes.length * (f / clientes.length + 1)
        = clientes.length * (f / clientes.length) + clientes.length := by ring
    simp only [repetition_factor]
    omega
  · intro hnd
    have hf1 : 1 ≤ f := by omega
    have h1 : f + clientes.length - 1 = (f - 1) + clientes.length := by omega
    have h2 : ((f - 1) + clientes.length) / clientes.length
        = (f - 1) / clientes.length + 1 := Nat.add_div_right _ h0
    have h3 : (f - 1 + 1) / clientes.length = (f - 1) / clientes.length :=
      Nat.succ_div_of_not_dvd (by rwa [Nat.sub_add_cancel hf1])
    simp only [repetition_factor, spec_ceil_div]
    rw [h1, h2, ← h3, Nat.sub_add_cancel hf1]

/-- Witness for the claim C3 theorem at d = 3 keys and f = 10 fact rows. -/
theorem c3_replication_factor_witness :
    ∃ pool, repeat_clientes ["a", "b", "c"] 10 id = .ok pool
      ∧ pool.length = 3 * repetition_factor 3 10
      ∧ 10 ≤ pool.length
      ∧ (¬ (3 : Nat) ∣ 10 → repetition_factor 3 10 = spec_ceil_div 10 3)
      ∧ repetition_factor 3 10 = 4 :=
  c3_replication_factor ["a", "b", "c"] 10 id rfl (by decide) (by decide)

/-- Counterexample to claim C4 as stated: `SELECT t.*` keeps the original
foreign-key column, so the output columns are all original fact columns
plus a second id_usuario column, not the original columns minus the
foreign key plus the new one. -/
theorem c4_output_columns_cex :
    (update_transacoes_cartao ⟨["id_usuario", "valor"], [["u1", "10"]]⟩ ["a"]
        (fun _ _ => true)).cols = ["id_usuario", "valor", "id_usuario"]
    ∧ spec_reconciled_cols ["id_usuario", "valor"] = ["valor", "id_usuario"]
    ∧ (update_transacoes_cartao ⟨["id_usuario", "valor"], [["u1", "10"]]⟩ ["a"]
        (fun _ _ => true)).cols ≠ spec_reconciled_cols ["id_usuario", "valor"] :=
  ⟨rfl, by decide, by decide⟩

/-- Claim C4, amended: the output columns are all original fact columns —
including the original foreign-key column — with the newly assigned
id_usuario column appended, and every output row consists of the unchanged
cell values of some input fact row followed by a key from the pool. -/
theorem c4_columns_and_frame (fact : Table) (pool : List String)
    (accept : Nat → Nat → Bool) :
    (update_transacoes_cartao fact pool accept).cols = fact.cols ++ ["id_usuario"]
    ∧ ∀ row ∈ (update_transacoes_cartao fact pool accept).rows,
        ∃ trow ∈ fact.rows, ∃ k ∈ pool, row = trow ++ [k] := by
  refine ⟨rfl, fun row hrow => ?_⟩
  simp only [update_transacoes_cartao, List.mem_flatMap, List.mem_filterMap,
    List.mem_range] at hrow
  obtain ⟨i, hi, j, hj, hacc⟩ := hrow
  split at hacc
  · split at hacc
    · next trow k heqt heqk =>
      obtain rfl : trow ++ [k] = row := by simpa using hacc
      exact ⟨trow, List.get?_mem heqt, k, List.get?_mem heqk, rfl⟩
    · simp at hacc
  · simp at hacc

/-- Witness for the claim C4 theorem at a concrete input. -/
theorem c4_columns_and_frame_witness :
    (update_transacoes_cartao ⟨["id_usuario", "valor"], [["u1", "10"]]⟩ ["a"]
        (fun _ _ => true)).cols = ["id_usuario", "valor"] ++ ["id_usuario"]
    ∧ ∀ row ∈ (update_transacoes_cartao ⟨["id_usuario", "valor"], [["u1", "10"]]⟩
        ["a"] (fun _ _ => true)).rows,
        ∃ trow ∈ ([["u1", "10"]] : List (List String)), ∃ k ∈ (["a"] : List String),
          row = trow ++ [k] :=
  c4_columns_and_frame ⟨["id_usuario", "valor"], [["u1", "10"]]⟩ ["a"]
    (fun _ _ => true)

/-- Claim C5: a flat-file materialization always writes with mode
overwrite; a catalog materialization writes with mode overwrite exactly
when the table does not yet exist and with mode append exactly when it
does, and in the append case the REFRESH TABLE call precedes the write in
the issued call sequence. -/
theorem c5_write_mode_and_refresh (nome : String) (cfg : TableConfig)
    (g : GlobalConfig) (gerar_dados : String → Nat → List (List String))
    (execDate : String) (tableExists : Bool)
    (hs : storage_supported g.storage_type = true) :
    (g.apenas_arquivos = true →
      ∃ w, criar_ou_atualizar_tabela nome true cfg g gerar_dados execDate tableExists
          = .ok [Event.write w] ∧ w.mode = "overwrite" ∧ w.isTable = false)
    ∧ (g.apenas_arquivos = false → tableExists = false →
      ∃ w, criar_ou_atualizar_tabela nome true cfg g gerar_dados execDate tableExists
          = .ok [Event.write w] ∧ w.mode = "overwrite" ∧ w.isTable = true)
    ∧ (g.apenas_arquivos = false → tableExists = true →
      ∃ w, criar_ou_atualizar_tabela nome true cfg g gerar_dados execDate tableExists
          = .ok [Event.refreshTable nome, Event.write w]
          ∧ w.mode = "append" ∧ w.isTable = true) := by
  refine ⟨fun ha => ?_, fun ha ht => ?_, fun ha ht => ?_⟩
  · simp [criar_ou_atualizar_tabela, hs, ha]
  · simp [criar_ou_atualizar_tabela, hs, ha, ht]
  · simp [criar_ou_atualizar_tabela, hs, ha, ht]

/-- Witness for the claim C5 theorem: catalog target, existing table. -/
theorem c5_write_mode_and_refresh_witness :
    ∃ w, criar_ou_atualizar_tabela "transacoes_cartao" true ⟨2, true, false, 4⟩
        ⟨false, "parquet", "S3", "s3a://bucket/"⟩ (fun _ _ => [["x"]])
        "2026-10-12" true
      = .ok [Event.refreshTable "transacoes_cartao", Event.write w]
      ∧ w.mode = "append" ∧ w.isTable = true :=
  (c5_write_mode_and_refresh "transacoes_cartao" ⟨2, true, false, 4⟩
    ⟨false, "parquet", "S3", "s3a://bucket/"⟩ (fun _ _ => [["x"]])
    "2026-10-12" true (by decide)).2.2 rfl rfl

/-- Claim C6: when a table is configured with both particionamento and
bucketing, the partition branch is checked first, so every write uses the
date-partitioned layout — in the flat-file path and in the catalog path
alike (the target kind and the prior existence of the table are
universally quantified here). -/
theorem c6_partition_over_bucket (nome : String) (cfg : TableConfig)
    (g : GlobalConfig) (gerar_dados : String → Nat → List (List String))
    (execDate : String) (tableExists : Bool)
    (hs : storage_supported g.storage_type = true)
    (hp : cfg.particionamento = true) (hb : cfg.bucketing = true) :
    ∃ evs, criar_ou_atualizar_tabela nome true cfg g gerar_dados execDate tableExists
        = .ok evs
      ∧ ∀ w, Event.write w ∈ evs → w.layout = Layout.partitionByDate := by
  by_cases ha : g.apenas_arquivos <;> by_cases ht : tableExists <;>
    simp_all [criar_ou_atualizar_tabela, chooseLayout, hs]

/-- Witness for the claim C6 theorem at a concrete input with both flags
set. -/
theorem c6_partition_over_bucket_witness :
    ∃ evs, criar_ou_atualizar_tabela "clientes" true ⟨5, true, true, 4⟩
        ⟨true, "csv", "S3", "s3a://bucket/"⟩ (fun _ _ => [["x"]])
        "2026-10-12" false = .ok evs
      ∧ ∀ w, Event.write w ∈ evs → w.layout = Layout.partitionByDate :=
  c6_partition_over_bucket "clientes" ⟨5, true, true, 4⟩
    ⟨true, "csv", "S3", "s3a://bucket/"⟩ (fun _ _ => [["x"]])
    "2026-10-12" false (by decide) rfl rfl

/-- Claim C7: catalog writes always use the fixed "parquet" format, for
every globally configured formato_arquivo, while flat-file writes use the
configured formato_arquivo. -/
theorem c7_catalog_format_fixed (nome : String) (cfg : TableConfig)
    (g : GlobalConfig) (gerar_dados : String → Nat → List (List String))
    (execDate : String) (tableExists : Bool)
    (hs : storage_supported g.storage_type = true) :
    (g.apenas_arquivos = false →
      ∃ evs, criar_ou_atualizar_tabela nome true cfg g gerar_dados execDate tableExists
          = .ok evs ∧ ∀ w, Event.write w ∈ evs → w.format = "parquet")
    ∧ (g.apenas_arquivos = true →
      ∃ evs, criar_ou_atualizar_tabela nome true cfg g gerar_dados execDate tableExists
          = .ok evs ∧ ∀ w, Event.write w ∈ evs → w.format = g.formato_arquivo) := by
  constructor <;> intro ha <;> by_cases ht : tableExists <;>
    simp_all [criar_ou_atualizar_tabela, hs]

/-- Witness for the claim C7 theorem: catalog target with the global
format configured as "csv", written as "parquet" nevertheless. -/
theorem c7_catalog_format_fixed_witness :
    ∃ evs, criar_ou_atualizar_tabela "clientes" true ⟨1, false, false, 0⟩
        ⟨false, "csv", "S3", "s3a://bucket/"⟩ (fun _ _ => [["x"]])
        "2026-10-12" false = .ok evs
      ∧ ∀ w, Event.write w ∈ evs → w.format = "parquet" :=
  (c7_catalog_format_fixed "clientes" ⟨1, false, false, 0⟩
    ⟨false, "csv", "S3", "s3a://bucket/"⟩ (fun _ _ => [["x"]])
    "2026-10-12" false (by decide)).1 rfl

/-- Counterexample to claim C8 as stated: with an empty dimension table
and an empty fact table the pass raises no error at all — it returns the
empty table — so "an empty dimension table raises an error" does not hold
universally. -/
theorem c8_empty_dim_no_error_cex :
    transformation_main [] ⟨["valor"], []⟩ id (fun _ _ => true)
      = .ok ⟨["valor", "id_usuario"], []⟩ :=
  rfl

/-- Claim C8, amended: with an empty dimension table and a NON-EMPTY fact
table the pass fails loudly (the replication-factor division raises), and
with an empty fact table it returns an empty table without error for
every dimension table, including the empty one. -/
theorem c8_empty_dim_fact_behavior (clientes : List String) (fact : Table)
    (shuffle : List String → List String) (accept : Nat → Nat → Bool) :
    (clientes = [] → fact.rows ≠ [] →
      transformation_main clientes fact shuffle accept
        = .error "ZeroDivisionError: integer division or modulo by zero")
    ∧ (fact.rows = [] →
      transformation_main clientes fact shuffle accept
        = .ok ⟨fact.cols ++ ["id_usuario"], []⟩) := by
  constructor
  · intro hc hf
    have hpos : 0 < fact.rows.length := List.length_pos.mpr hf
    subst hc
    simp [transformation_main, repeat_clientes, hpos]
  · intro hf
    simp [transformation_main, repeat_clientes, hf, update_transacoes_cartao]

/-- Witness for the claim C8 theorem: an empty dimension with one fact row
errors; a non-empty dimension with an empty fact table yields the empty
table. -/
theorem c8_empty_dim_fact_behavior_witness :
    transformation_main [] ⟨["valor"], [["10"]]⟩ id (fun _ _ => true)
      = .error "ZeroDivisionError: integer division or modulo by zero"
    ∧ transformation_main ["a"] ⟨["valor"], []⟩ id (fun _ _ => true)
      = .ok ⟨["valor", "id_usuario"], []⟩ :=
  ⟨(c8_empty_dim_fact_behavior [] ⟨["valor"], [["10"]]⟩ id (fun _ _ => true)).1
      rfl (by decide),
    (c8_empty_dim_fact_behavior ["a"] ⟨["valor"], []⟩ id (fun _ _ => true)).2 rfl⟩

/-- Claim C9: a configuration-load failure or an engine-session
initialization failure (Spark session creation together with the startup
database create/use, src/main.py lines 110-127) exits with code 1; when
both succeed the run exits with code 0 even if individual tables fail:
every listed table is still reached — an existing section is invoked, a
failing invocation is logged as a table error and the loop continues, a
missing section is warned about. -/
theorem c9_exit_codes_and_loop (configLoadOk sessionInitOk : Bool)
    (tabelasValue : String) (sections : List String)
    (criar : String → Except String (List Event)) :
    (configLoadOk = false →
      (main_run configLoadOk sessionInitOk tabelasValue sections criar).1 = 1)
    ∧ (sessionInitOk = false →
      (main_run configLoadOk sessionInitOk tabelasValue sections criar).1 = 1)
    ∧ (configLoadOk = true → sessionInitOk = true →
      (main_run configLoadOk sessionInitOk tabelasValue sections criar).1 = 0
      ∧ ∀ t ∈ pySplitComma tabelasValue,
          (pyStrip t ∈ sections →
            MainEvent.invoked (pyStrip t)
              ∈ (main_run configLoadOk sessionInitOk tabelasValue sections criar).2)
          ∧ (pyStrip t ∈ sections → ∀ e, criar (pyStrip t) = .error e →
            MainEvent.tableError (pyStrip t)
              ∈ (main_run configLoadOk sessionInitOk tabelasValue sections criar).2)
          ∧ (pyStrip t ∉ sections →
            MainEvent.warnedMissing (pyStrip t)
              ∈ (main_run configLoadOk sessionInitOk tabelasValue sections criar).2)) := by
  refine ⟨fun hc => by simp [main_run, hc],
    fun hs => by cases configLoadOk <;> simp [main_run, hs],
    fun hc hs => ?_⟩
  subst hc
  subst hs
  refine ⟨rfl, fun t ht => ?_⟩
  have hrun : (main_run true true tabelasValue sections criar).2
      = (pySplitComma tabelasValue).flatMap (processTable sections criar) := by
    simpa [main_run] using main_loop_eq_flatMap tabelasValue sections criar t ht
  rw [hrun]
  refine ⟨fun hmem => ?_, fun hmem e herr => ?_, fun hmem => ?_⟩
  · exact List.mem_flatMap.mpr ⟨t, ht, invoked_mem_processTable sections criar t hmem⟩
  · exact List.mem_flatMap.mpr
      ⟨t, ht, tableError_mem_processTable sections criar t e hmem herr⟩
  · refine List.mem_flatMap.mpr ⟨t, ht, ?_⟩
    rw [processTable_of_missing sections criar t hmem]
    simp

/-- Witness for the claim C9 theorem: both startup phases succeed, the
only configured table fails, the loop still warns about the second name
and the process exits 0. -/
theorem c9_exit_codes_and_loop_witness :
    (main_run true true "clientes, missing" ["clientes"]
      (fun _ => Except.error "boom")).1 = 0
    ∧ MainEvent.invoked "clientes"
        ∈ (main_run true true "clientes, missing" ["clientes"]
            (fun _ => Except.error "boom")).2
    ∧ MainEvent.tableError "clientes"
        ∈ (main_run true true "clientes, missing" ["clientes"]
            (fun _ => Except.error "boom")).2
    ∧ MainEvent.warnedMissing "missing"
        ∈ (main_run true true "clientes, missing" ["clientes"]
            (fun _ => Except.error "boom")).2 := by
  obtain ⟨-, -, h3⟩ := c9_exit_codes_and_loop true true "clientes, missing"
    ["clientes"] (fun _ => Except.error "boom")
  obtain ⟨h0, hf⟩ := h3 rfl rfl
  refine ⟨h0, ?_, ?_, ?_⟩
  · exact (hf "clientes" (by decide)).1 (by decide)
  · exact (hf "clientes" (by decide)).2.1 (by decide) "boom" rfl
  · exact (hf " missing" (by decide)).2.2 (by decide)

/-- Claim C10: a listed name with no matching configuration section is
only warned about — `criar_ou_atualizar_tabela` is never invoked for it —
and with the empty `tabelas` value the comma split still yields one
empty-string name, so the no-tables error branch is not taken. -/
theorem c10_missing_section_skipped (tabelasValue : String)
    (sections : List String) (criar : String → Except String (List Event)) :
    (∀ t ∈ pySplitComma tabelasValue, pyStrip t ∉ sections →
        MainEvent.warnedMissing (pyStrip t) ∈ main_loop tabelasValue sections criar
        ∧ MainEvent.invoked (pyStrip t) ∉ main_loop tabelasValue sections criar)
    ∧ MainEvent.noTablesError ∉ main_loop "" sections criar := by
  constructor
  · intro t ht hmem
    rw [main_loop_eq_flatMap tabelasValue sections criar t ht]
    constructor
    · refine List.mem_flatMap.mpr ⟨t, ht, ?_⟩
      rw [processTable_of_missing sections criar t hmem]
      simp
    · intro hcontra
      obtain ⟨t2, _, hx⟩ := List.mem_flatMap.mp hcontra
      obtain ⟨heq, hin⟩ := invoked_mem_processTable_inv sections criar t2 (pyStrip t) hx
      rw [heq] at hmem
      exact hmem hin
  · intro hcontra
    have hsplit : pySplitComma "" = [""] := rfl
    have hflat := main_loop_eq_flatMap "" sections criar "" (by rw [hsplit]; simp)
    rw [hflat] at hcontra
    obtain ⟨t2, _, hx⟩ := List.mem_flatMap.mp hcontra
    exact noTablesError_not_mem_processTable sections criar t2 hx

/-- Witness for the claim C10 theorem: a name without a section is warned
about and never invoked, and the empty tabelas value does not reach the
no-tables branch. -/
theorem c10_missing_section_skipped_witness :
    MainEvent.warnedMissing "ghost"
        ∈ main_loop "ghost" ["clientes"] (fun _ => Except.ok [])
    ∧ MainEvent.invoked "ghost"
        ∉ main_loop "ghost" ["clientes"] (fun _ => Except.ok [])
    ∧ MainEvent.noTablesError
        ∉ main_loop "" ["clientes"] (fun _ => Except.ok []) := by
  obtain ⟨h1, h2⟩ := c10_missing_section_skipped "ghost" ["clientes"]
    (fun _ => Except.ok [])
  obtain ⟨hw, hn⟩ := h1 "ghost" (by decide) (by decide)
  exact ⟨hw, hn, h2⟩
